import Mathlib

/-!
Verification of the `run_and_plot.py` orchestration script: simulation index
data model, index loading and validation, CSV output loading, subprocess
invocation with output capture, trajectory plot geometry, and the main
orchestrator control flow.
-/

/-- The `SimulationOutputTypeEnum` enum: single variant `TRAJECTORY`
(serialized value "trajectory"). -/
inductive SimulationOutputTypeEnum where
  | trajectory
  deriving DecidableEq, Repr

/-- The `Simulation` pydantic model: one simulation descriptor record.
The JSON input key "id" populates `simulation_id` (pydantic alias). -/
structure Simulation where
  simulation_id : String
  name : String
  entrypoint : String
  output_type : SimulationOutputTypeEnum
  output_path : String
  dimensions : Int
  description : String
  deriving DecidableEq, Repr

/-- The `SimulationIndex` pydantic model: ordered list of descriptors. -/
structure SimulationIndex where
  simulations : List Simulation
  deriving DecidableEq, Repr

/-- `SimulationIndex.get_simulation`: iterate over the simulations, return
the first whose `simulation_id` equals the query; the Python function falls
off the loop end and implicitly returns `None` when no record matches. -/
def get_simulation : List Simulation → String → Option Simulation
  | [], _ => none
  | s :: rest, i => if s.simulation_id = i then some s else get_simulation rest i

/-- Example descriptors used to instantiate theorems at concrete inputs. -/
def simA : Simulation :=
  { simulation_id := "a", name := "first", entrypoint := "demo-a",
    output_type := .trajectory, output_path := "out_a.csv",
    dimensions := 3, description := "" }

def simB : Simulation :=
  { simulation_id := "b", name := "second", entrypoint := "demo-b",
    output_type := .trajectory, output_path := "out_b.csv",
    dimensions := 3, description := "orbital demo" }

/-- JSON values as produced by `json.load` (numbers restricted to the
integers, which is all the index schema uses). -/
inductive Json where
  | null
  | bool (b : Bool)
  | num (n : Int)
  | str (s : String)
  | arr (elems : List Json)
  | obj (fields : List (String × Json))

/-- Look up a key in a JSON object field list (first occurrence; `json.load`
dictionaries have unique keys). -/
def getField (fields : List (String × Json)) (key : String) : Option Json :=
  (fields.find? (fun p => p.1 = key)).map Prod.snd

def asStr : Json → Option String
  | .str s => some s
  | _ => none

def asInt : Json → Option Int
  | .num n => some n
  | _ => none

/-- pydantic `StringConstraints(min_length=1)`: accept only strings of
length at least 1. -/
def asNonEmptyStr (j : Json) : Option String :=
  (asStr j).bind (fun s => if 1 ≤ s.length then some s else none)

/-- pydantic validation of a `SimulationOutputTypeEnum` field: the value
must be the serialized form of a known variant. -/
def asOutputType (j : Json) : Option SimulationOutputTypeEnum :=
  (asStr j).bind (fun s => if s = "trajectory" then some .trajectory else none)

/-- pydantic validation of one `Simulation` record: every field must be
present and satisfy its constraint; the input key "id" (the alias) populates
`simulation_id`; `description` is an unconstrained string. -/
def parseSimulation (j : Json) : Option Simulation :=
  match j with
  | .obj fields => do
      let sid ← (getField fields "id").bind asNonEmptyStr
      let nm ← (getField fields "name").bind asNonEmptyStr
      let ep ← (getField fields "entrypoint").bind asNonEmptyStr
      let ot ← (getField fields "output_type").bind asOutputType
      let op ← (getField fields "output_path").bind asNonEmptyStr
      let dims ← (getField fields "dimensions").bind asInt
      let desc ← (getField fields "description").bind asStr
      pure { simulation_id := sid, name := nm, entrypoint := ep,
             output_type := ot, output_path := op, dimensions := dims,
             description := desc }
  | _ => none

/-- Validate each element of the "simulations" array in order; any invalid
record fails the whole load (pydantic list validation). -/
def parseSimulations : List Json → Option (List Simulation)
  | [] => some []
  | j :: rest => do
      let s ← parseSimulation j
      let ss ← parseSimulations rest
      pure (s :: ss)

/-- `SimulationIndex(**index_data)`: the top level must be an object with a
"simulations" array whose records all validate. -/
def parseIndex (j : Json) : Option SimulationIndex :=
  match j with
  | .obj fields => do
      let sims ← (getField fields "simulations").bind (fun v =>
        match v with
        | .arr elems => parseSimulations elems
        | _ => none)
      pure ⟨sims⟩
  | _ => none

/-- The failure modes of `load_index`: `open` raising on a missing file,
`json.load` raising on malformed text, pydantic raising on schema
violations. -/
inductive LoadError where
  | fileMissing
  | jsonMalformed
  | validationFailed
  deriving DecidableEq, Repr

/-- `load_index`: read `index.json` from the working directory and
deserialize it. The argument models the state of that file: `none` = file
missing, `some none` = present but not parseable as JSON, `some (some j)` =
parses to the JSON value `j`, which pydantic then validates. -/
def load_index (file : Option (Option Json)) : Except LoadError SimulationIndex :=
  match file with
  | none => .error .fileMissing
  | some none => .error .jsonMalformed
  | some (some j) =>
      match parseIndex j with
      | some idx => .ok idx
      | none => .error .validationFailed

/-- Serialization of a descriptor to JSON with the wire key "id" for
`simulation_id`: the shape of a record in a well-formed index file. -/
def simulationToJson (s : Simulation) : Json :=
  .obj [("id", .str s.simulation_id), ("name", .str s.name),
        ("entrypoint", .str s.entrypoint),
        ("output_type", .str "trajectory"),
        ("output_path", .str s.output_path),
        ("dimensions", .num s.dimensions),
        ("description", .str s.description)]

/-- Serialization of a whole well-formed index file. -/
def indexToJson (sims : List Simulation) : Json :=
  .obj [("simulations", .arr (sims.map simulationToJson))]

/-- The field constraints the `Simulation` model declares: four non-empty
string fields (the enum and int constraints are enforced by typing). -/
def validSimulation (s : Simulation) : Prop :=
  1 ≤ s.simulation_id.length ∧ 1 ≤ s.name.length ∧
  1 ≤ s.entrypoint.length ∧ 1 ≤ s.output_path.length

instance : DecidablePred validSimulation := fun s => by
  unfold validSimulation; infer_instance

/-- A polars DataFrame over exact rationals: an ordered list of named
columns. -/
structure DataFrame where
  cols : List (String × List ℚ)
  deriving DecidableEq, Repr

/-- The placeholder column names polars assigns with `has_header=False`:
"column_1", "column_2", ... -/
def colName (n : Nat) : String := "column_" ++ toString n

/-- `pl.read_csv(path, has_header=False)` on the file's parsed cell grid:
the first row fixes the column count, an empty or ragged grid is a parse
error, and column `i` collects the i-th cell of every row. -/
def read_csv (table : List (List ℚ)) : Option DataFrame :=
  match table with
  | [] => none
  | r0 :: _ =>
      if table.all (fun r => r.length = r0.length) then
        some ⟨(List.range r0.length).map
          (fun i => (colName (i + 1), table.map (fun r => r.getD i 0)))⟩
      else none

/-- `DataFrame.rename(mapping)`: every source name must be an existing
column (otherwise polars raises ColumnNotFoundError); matching columns get
the new name; order and values are unchanged and no column is dropped. -/
def rename (df : DataFrame) (m : List (String × String)) : Option DataFrame :=
  if m.all (fun p => df.cols.any (fun c => c.1 = p.1)) then
    some ⟨df.cols.map (fun c =>
      match m.find? (fun p => p.1 = c.1) with
      | some p => (p.2, c.2)
      | none => c)⟩
  else none

/-- `load_output_data`: read the CSV at the descriptor's `output_path`
(`table` stands for that file's cell grid) and dispatch on the output type;
for TRAJECTORY, rename the first three placeholder columns to x, y, z. -/
def load_output_data (ot : SimulationOutputTypeEnum) (table : List (List ℚ)) :
    Option DataFrame :=
  (read_csv table).bind (fun df =>
    match ot with
    | .trajectory =>
        rename df [("column_1", "x"), ("column_2", "y"), ("column_3", "z")])

/-- Observable behavior of the external simulation binary for one run: the
bytes it writes to standard output before exiting (all of its output when
it exits 0, the prefix written so far when it exits non-zero), and its
exit status. -/
structure ChildBehavior where
  writtenBytes : List Nat
  exitStatus : Nat
  deriving DecidableEq, Repr

/-- State of the log file opened at `output_path`: its byte contents and
whether the handle has been closed. -/
structure FileState where
  contents : List Nat
  closed : Bool
  deriving DecidableEq, Repr

/-- `subprocess.run(..., check=True)` raises CalledProcessError carrying
the exit status. -/
inductive ProcError where
  | calledProcessError (status : Nat)
  deriving DecidableEq, Repr

deriving instance DecidableEq for Except

/-- Result of `run_simulation`: the argv passed to `subprocess.run`, the
outcome, and the final state of the log file. -/
structure RunResult where
  argv : List String
  result : Except ProcError Unit
  file : FileState
  deriving DecidableEq, Repr

/-- `run_simulation`: open `output_path` for writing (truncating), run
`binary_path run --target <entrypoint>` with the child's stdout redirected
into the file, with `check=True`; the `with` block closes the handle on
both the normal path and the raising path. -/
def run_simulation (simulation : Simulation) (binary_path : String)
    (child : ChildBehavior) : RunResult :=
  let opened : FileState := { contents := [], closed := false }
  let written : FileState := { opened with contents := child.writtenBytes }
  { argv := [binary_path, "run", "--target", simulation.entrypoint],
    result := if child.exitStatus = 0 then .ok ()
      else .error (.calledProcessError child.exitStatus),
    file := { written with closed := true } }

/-- numpy `.max()`: the plotting code only evaluates it on non-empty data
(its own indexing fails first on empty arrays); on `[]` the model returns
an arbitrary value. -/
def npMax : List ℚ → ℚ
  | [] => 0
  | x :: xs => xs.foldl max x

/-- numpy `.min()`, as for `npMax`. -/
def npMin : List ℚ → ℚ
  | [] => 0
  | x :: xs => xs.foldl min x

/-- `df["name"].to_numpy()`: the values of the column with that name. -/
def column (df : DataFrame) (name : String) : Option (List ℚ) :=
  (df.cols.find? (fun c => c.1 = name)).map Prod.snd

/-- The `max_range` local of `plot_trajectory`: half the largest of the
three axis spans. -/
def max_range_of (xs ys zs : List ℚ) : ℚ :=
  max (max (npMax xs - npMin xs) (npMax ys - npMin ys)) (npMax zs - npMin zs) / 2

/-- The `mid_x`/`mid_y`/`mid_z` locals of `plot_trajectory`: the axis
midpoint `(max + min) * 0.5`. -/
def mid_of (l : List ℚ) : ℚ := (npMax l + npMin l) * (1 / 2)

/-- The geometry `plot_trajectory` renders: the 3D line, the start and end
markers, and the axis limits it sets. -/
structure Plot3D where
  line : List ℚ × List ℚ × List ℚ
  start : ℚ × ℚ × ℚ
  endMarker : ℚ × ℚ × ℚ
  xlim : ℚ × ℚ
  ylim : ℚ × ℚ
  zlim : ℚ × ℚ
  deriving DecidableEq, Repr

/-- `plot_trajectory`: read columns x, y, z, plot the line, scatter the
start marker from index 0 and the end marker from index -1 (an error on an
empty array, like numpy indexing), then set each axis's limits to its own
midpoint plus or minus `max_range`. -/
def plot_trajectory (df : DataFrame) : Option Plot3D := do
  let xs ← column df "x"
  let ys ← column df "y"
  let zs ← column df "z"
  let x0 ← xs.head?
  let y0 ← ys.head?
  let z0 ← zs.head?
  let x1 ← xs.getLast?
  let y1 ← ys.getLast?
  let z1 ← zs.getLast?
  let max_range := max_range_of xs ys zs
  let mid_x := mid_of xs
  let mid_y := mid_of ys
  let mid_z := mid_of zs
  pure { line := (xs, ys, zs),
         start := (x0, y0, z0),
         endMarker := (x1, y1, z1),
         xlim := (mid_x - max_range, mid_x + max_range),
         ylim := (mid_y - max_range, mid_y + max_range),
         zlim := (mid_z - max_range, mid_z + max_range) }

/-- The trajectory table of the spec's concrete plotting example: triples
(0,0,0), (1,1,1), (2,0,2). -/
def trajDf : DataFrame :=
  ⟨[("x", [0, 1, 2]), ("y", [0, 1, 0]), ("z", [0, 1, 2])]⟩

/-- A one-row trajectory table. -/
def singletonDf : DataFrame :=
  ⟨[("x", [5]), ("y", [6]), ("z", [7])]⟩

/-- The CLI arguments `main` receives. -/
structure Args where
  simulation_id : String
  fpm_binary_path : String
  output_dir : String
  deriving DecidableEq, Repr

/-- The basename `{simulation_id}_{int(start_ts)}.log`. -/
def log_file_name (simulation_id : String) (ts : Nat) : String :=
  simulation_id ++ "_" ++ toString ts ++ ".log"

/-- The basename `{simulation_id}_{int(start_ts)}.png`. -/
def plot_file_name (simulation_id : String) (ts : Nat) : String :=
  simulation_id ++ "_" ++ toString ts ++ ".png"

/-- `Path(args.output_dir) / f"{id}_{int(start_ts)}.log"`. -/
def log_file_path (output_dir simulation_id : String) (ts : Nat) : String :=
  output_dir ++ "/" ++ log_file_name simulation_id ts

/-- `Path(args.output_dir) / f"{id}_{int(start_ts)}.png"`. -/
def plot_file_path (output_dir simulation_id : String) (ts : Nat) : String :=
  output_dir ++ "/" ++ plot_file_name simulation_id ts

/-- The observable effects of one `main` run, in order. -/
inductive Event where
  | logError (msg : String)
  | logInfo (msg : String)
  | logFinished (durationSeconds : Int) (logFile : String)
  | logPlotSaved (path : String)
  | runProcess (argv : List String) (logPath : String)
  | savePlot (path : String)
  deriving DecidableEq, Repr

/-- The errors `main` can raise: the explicit ValueError for an unknown id,
and the propagated errors of the later stages. -/
inductive MainError where
  | simulationNotFound (simulation_id : String)
  | processFailed (status : Nat)
  | dataLoadFailed
  | renderFailed
  deriving DecidableEq, Repr

/-- The `main` orchestrator with its environment passed explicitly: the
already-loaded index, the two `datetime.now().timestamp()` readings
truncated to seconds (start, then end), the child process behavior, and
the cell grid of the simulation's output file. Returns the ordered effect
trace and the outcome. -/
def mainModel (args : Args) (index : SimulationIndex) (tsStart tsEnd : Nat)
    (child : ChildBehavior) (outputTable : List (List ℚ)) :
    List Event × Except MainError Unit :=
  match get_simulation index.simulations args.simulation_id with
  | none =>
      ([.logError "Simulation with provided id not found."],
       .error (.simulationNotFound args.simulation_id))
  | some simulation =>
      match (run_simulation simulation args.fpm_binary_path child).result with
      | .error (.calledProcessError st) =>
          ([.logInfo "Running simulation.",
            .runProcess (run_simulation simulation args.fpm_binary_path child).argv
              (log_file_path args.output_dir args.simulation_id tsStart)],
           .error (.processFailed st))
      | .ok _ =>
          match load_output_data simulation.output_type outputTable with
          | none =>
              ([.logInfo "Running simulation.",
                .runProcess (run_simulation simulation args.fpm_binary_path child).argv
                  (log_file_path args.output_dir args.simulation_id tsStart),
                .logFinished ((tsEnd : Int) - (tsStart : Int))
                  (log_file_name args.simulation_id tsStart)],
               .error .dataLoadFailed)
          | some df =>
              match simulation.output_type with
              | .trajectory =>
                  match plot_trajectory df with
                  | none =>
                      ([.logInfo "Running simulation.",
                        .runProcess
                          (run_simulation simulation args.fpm_binary_path child).argv
                          (log_file_path args.output_dir args.simulation_id tsStart),
                        .logFinished ((tsEnd : Int) - (tsStart : Int))
                          (log_file_name args.simulation_id tsStart)],
                       .error .renderFailed)
                  | some _ =>
                      ([.logInfo "Running simulation.",
                        .runProcess
                          (run_simulation simulation args.fpm_binary_path child).argv
                          (log_file_path args.output_dir args.simulation_id tsStart),
                        .logFinished ((tsEnd : Int) - (tsStart : Int))
                          (log_file_name args.simulation_id tsStart),
                        .savePlot (plot_file_path args.output_dir args.simulation_id tsStart),
                        .logPlotSaved (plot_file_name args.simulation_id tsStart)],
                       .ok ())

/-- C1: `get_simulation` returns the first descriptor whose `simulation_id`
equals the query id, and `none` exactly when no descriptor matches
(including the empty index). -/
theorem get_simulation_first_match (sims : List Simulation) (i : String) :
    (get_simulation sims i = none ↔ ∀ s ∈ sims, s.simulation_id ≠ i) ∧
    (∀ s, get_simulation sims i = some s →
      s.simulation_id = i ∧
      ∃ l₁ l₂, sims = l₁ ++ s :: l₂ ∧ ∀ t ∈ l₁, t.simulation_id ≠ i) := by
  induction sims with
  | nil => simp [get_simulation]
  | cons s rest ih =>
    by_cases h : s.simulation_id = i
    · refine ⟨?_, ?_⟩
      · simp [get_simulation, h]
      · intro t ht
        simp [get_simulation, h] at ht
        subst ht
        exact ⟨h, [], rest, rfl, by simp⟩
    · refine ⟨?_, ?_⟩
      · simp only [get_simulation, if_neg h]
        constructor
        · intro hn
          intro t ht
          rcases List.mem_cons.mp ht with rfl | hmem
          · exact h
          · exact (ih.1.mp hn) t hmem
        · intro hall
          exact ih.1.mpr (fun t ht => hall t (List.mem_cons_of_mem _ ht))
      · intro t ht
        simp only [get_simulation, if_neg h] at ht
        obtain ⟨hid, l₁, l₂, heq, hall⟩ := ih.2 t ht
        refine ⟨hid, s :: l₁, l₂, by simp [heq], ?_⟩
        intro u hu
        rcases List.mem_cons.mp hu with rfl | hmem
        · exact h
        · exact hall u hmem

/-- Witness for C1 at a concrete index and query. -/
theorem get_simulation_first_match_witness :
    simB.simulation_id = "b" ∧
    ∃ l₁ l₂, [simA, simB] = l₁ ++ simB :: l₂ ∧ ∀ t ∈ l₁, t.simulation_id ≠ "b" :=
  (get_simulation_first_match [simA, simB] "b").2 simB (by decide)

theorem asNonEmptyStr_some {j : Json} {s : String}
    (h : asNonEmptyStr j = some s) : 1 ≤ s.length := by
  cases j <;> simp [asNonEmptyStr, asStr] at h
  case str t =>
    obtain ⟨ht, rfl⟩ := h
    exact ht

theorem parseSimulation_toJson (s : Simulation) (h : validSimulation s) :
    parseSimulation (simulationToJson s) = some s := by
  obtain ⟨h1, h2, h3, h4⟩ := h
  cases s
  simp [parseSimulation, simulationToJson, getField, List.find?,
    asNonEmptyStr, asStr, asOutputType, asInt, h1, h2, h3, h4] at *

theorem parseSimulation_valid (j : Json) (s : Simulation)
    (h : parseSimulation j = some s) : validSimulation s := by
  cases j <;> simp [parseSimulation] at h
  case obj fields =>
    simp only [Option.bind_eq_bind, Option.bind_eq_some, Option.pure_def,
      Option.some.injEq] at h
    obtain ⟨sid, hsid, nm, hnm, ep, hep, ot, hot, op, hop, dims, hdims,
      desc, hdesc, hs⟩ := h
    obtain ⟨j1, _, hj1⟩ := hsid
    obtain ⟨j2, _, hj2⟩ := hnm
    obtain ⟨j3, _, hj3⟩ := hep
    obtain ⟨j5, _, hj5⟩ := hop
    subst hs
    exact ⟨asNonEmptyStr_some hj1, asNonEmptyStr_some hj2,
      asNonEmptyStr_some hj3, asNonEmptyStr_some hj5⟩

theorem parseSimulations_map (sims : List Simulation)
    (h : ∀ s ∈ sims, validSimulation s) :
    parseSimulations (sims.map simulationToJson) = some sims := by
  induction sims with
  | nil => rfl
  | cons s rest ih =>
      simp [parseSimulations,
        parseSimulation_toJson s (h s (by simp)),
        ih (fun t ht => h t (by simp [ht]))]

theorem parseSimulations_valid (js : List Json) (ss : List Simulation)
    (h : parseSimulations js = some ss) : ∀ s ∈ ss, validSimulation s := by
  induction js generalizing ss with
  | nil =>
      simp [parseSimulations] at h
      subst h
      simp
  | cons j rest ih =>
      simp only [parseSimulations, Option.bind_eq_bind, Option.bind_eq_some,
        Option.pure_def, Option.some.injEq] at h
      obtain ⟨s, hs, ss0, hss0, heq⟩ := h
      subst heq
      intro t ht
      rcases List.mem_cons.mp ht with rfl | hmem
      · exact parseSimulation_valid j t hs
      · exact ih ss0 hss0 t hmem

/-- C6: loading a well-formed index file with N descriptors round-trips
field-for-field (so in particular yields an index of length N); the load
errors when the file is missing, when it is malformed, and a successful
load implies every record satisfied the field constraints (equivalently, a
constraint-violating record fails the load). -/
theorem load_index_roundtrip_and_errors :
    (∀ sims : List Simulation, (∀ s ∈ sims, validSimulation s) →
        load_index (some (some (indexToJson sims))) = .ok ⟨sims⟩) ∧
    load_index none = .error .fileMissing ∧
    load_index (some none) = .error .jsonMalformed ∧
    (∀ j idx, load_index (some (some j)) = .ok idx →
        ∀ s ∈ idx.simulations, validSimulation s) := by
  refine ⟨?_, rfl, rfl, ?_⟩
  · intro sims h
    simp [load_index, parseIndex, indexToJson, getField, List.find?,
      parseSimulations_map sims h]
  · intro j idx h
    simp only [load_index] at h
    cases hp : parseIndex j with
    | none => rw [hp] at h; cases h
    | some idx0 =>
        rw [hp] at h
        cases h
        cases j <;> simp [parseIndex] at hp
        case obj fields =>
          simp only [Option.bind_eq_bind, Option.bind_eq_some,
            Option.pure_def, Option.some.injEq] at hp
          obtain ⟨sims, hsims, heq⟩ := hp
          obtain ⟨v, hgf, hv⟩ := hsims
          subst heq
          cases v with
          | null => exact Option.noConfusion hv
          | bool b => exact Option.noConfusion hv
          | num n => exact Option.noConfusion hv
          | str t => exact Option.noConfusion hv
          | obj f2 => exact Option.noConfusion hv
          | arr elems => exact parseSimulations_valid elems sims hv

/-- Witness for C6: the round-trip branch applied to a concrete two-record
index file. -/
theorem load_index_roundtrip_witness :
    load_index (some (some (indexToJson [simA, simB]))) = .ok ⟨[simA, simB]⟩ :=
  load_index_roundtrip_and_errors.1 [simA, simB] (by decide)

theorem colName_one : colName 1 = "column_1" := rfl

theorem colName_two : colName 2 = "column_2" := rfl

theorem colName_three : colName 3 = "column_3" := rfl

theorem getD_map_getD (l : List (List ℚ)) (i j : Nat) (hj : j < l.length) :
    (l.map (fun r => r.getD i 0)).getD j 0 = (l.getD j []).getD i 0 := by
  induction l generalizing j with
  | nil => exact absurd hj (by simp)
  | cons r rest ih =>
      cases j with
      | zero => rfl
      | succ j0 =>
          simp only [List.map_cons, List.getD_cons_succ]
          exact ih j0 (Nat.lt_of_succ_lt_succ hj)

theorem read_csv_rect (r0 : List ℚ) (rest : List (List ℚ))
    (h : ∀ r ∈ r0 :: rest, r.length = r0.length) :
    read_csv (r0 :: rest) =
      some ⟨(List.range r0.length).map
        (fun i => (colName (i + 1), (r0 :: rest).map (fun r => r.getD i 0)))⟩ := by
  unfold read_csv
  have hc : ((r0 :: rest).all (fun r => r.length = r0.length)) = true := by
    simp only [List.all_eq_true, decide_eq_true_eq]
    exact h
  simp [hc]

/-- C3: on a non-empty rectangular 3-column table, TRAJECTORY loading
returns the table with columns named exactly x, y, z in order, each of the
input's row count, every value unchanged. -/
theorem load_output_data_trajectory_roundtrip (table : List (List ℚ))
    (hne : table ≠ []) (h3 : ∀ r ∈ table, r.length = 3) :
    ∃ df, load_output_data .trajectory table = some df ∧
      df.cols.map Prod.fst = ["x", "y", "z"] ∧
      (∀ c ∈ df.cols, c.2.length = table.length) ∧
      (∀ i < 3, ∀ j < table.length,
        (df.cols.getD i ("", [])).2.getD j 0 = (table.getD j []).getD i 0) := by
  obtain ⟨r0, rest, rfl⟩ := List.exists_cons_of_ne_nil hne
  have h0 : r0.length = 3 := h3 r0 (by simp)
  have hrect : ∀ r ∈ r0 :: rest, r.length = r0.length := by
    intro r hr
    rw [h3 r hr, h0]
  have hread := read_csv_rect r0 rest hrect
  rw [h0] at hread
  refine ⟨⟨[("x", (r0 :: rest).map (fun r => r.getD 0 0)),
            ("y", (r0 :: rest).map (fun r => r.getD 1 0)),
            ("z", (r0 :: rest).map (fun r => r.getD 2 0))]⟩, ?_, rfl, ?_, ?_⟩
  · unfold load_output_data
    rw [hread]
    rfl
  · intro c hc
    simp only [List.mem_cons, List.not_mem_nil, or_false] at hc
    rcases hc with rfl | rfl | rfl <;> simp
  · intro i hi j hj
    interval_cases i
    · simpa using getD_map_getD (r0 :: rest) 0 j hj
    · simpa using getD_map_getD (r0 :: rest) 1 j hj
    · simpa using getD_map_getD (r0 :: rest) 2 j hj

/-- Witness for C3 at the concrete 3-row table (0,0,0), (1,1,1), (2,0,2). -/
theorem load_output_data_trajectory_roundtrip_witness :
    ∃ df, load_output_data .trajectory [[0, 0, 0], [1, 1, 1], [2, 0, 2]] = some df ∧
      df.cols.map Prod.fst = ["x", "y", "z"] ∧
      (∀ c ∈ df.cols, c.2.length = List.length [[(0 : ℚ), 0, 0], [1, 1, 1], [2, 0, 2]]) ∧
      (∀ i < 3, ∀ j < List.length [[(0 : ℚ), 0, 0], [1, 1, 1], [2, 0, 2]],
        (df.cols.getD i ("", [])).2.getD j 0 =
          (List.getD [[(0 : ℚ), 0, 0], [1, 1, 1], [2, 0, 2]] j []).getD i 0) :=
  load_output_data_trajectory_roundtrip [[0, 0, 0], [1, 1, 1], [2, 0, 2]]
    (by decide) (by decide)

theorem load_output_data_success_shape (table : List (List ℚ)) (df : DataFrame)
    (h : load_output_data .trajectory table = some df) :
    3 ≤ (table.headD []).length ∧
    df.cols.length = (table.headD []).length ∧
    (df.cols.map Prod.fst).take 3 = ["x", "y", "z"] := by
  cases table with
  | nil => exact absurd h (by simp [load_output_data, read_csv])
  | cons r0 rest =>
    unfold load_output_data at h
    cases hread : read_csv (r0 :: rest) with
    | none => rw [hread] at h; cases h
    | some df0 =>
      rw [hread] at h
      simp only [Option.some_bind] at h
      rw [read_csv] at hread
      split at hread
      next hall =>
        cases hread
        unfold rename at h
        split at h
        next hcond =>
          have h3c : ((List.range r0.length).map
              (fun i => (colName (i + 1), (r0 :: rest).map (fun r => r.getD i 0)))).any
                (fun c => c.1 = "column_3") = true := by
            have := List.all_eq_true.mp hcond ("column_3", "z") (by simp)
            simpa using this
          have hn : 3 ≤ r0.length := by
            obtain ⟨c, hcmem, hceq⟩ := List.any_eq_true.mp h3c
            obtain ⟨i, hi, rfl⟩ := List.mem_map.mp hcmem
            rw [List.mem_range] at hi
            by_contra hlt
            push_neg at hlt
            have hi2 : i < 2 := by omega
            interval_cases i
            · rw [show (0 : Nat) + 1 = 1 from rfl, colName_one] at hceq
              have hstr : ("column_1" : String) = "column_3" := of_decide_eq_true hceq
              exact absurd hstr (by decide)
            · rw [show (1 : Nat) + 1 = 2 from rfl, colName_two] at hceq
              have hstr : ("column_2" : String) = "column_3" := of_decide_eq_true hceq
              exact absurd hstr (by decide)
          cases h
          refine ⟨hn, by simp, ?_⟩
          rw [List.map_map, List.map_map, ← List.map_take, List.take_range,
            Nat.min_eq_left hn]
          rfl
        next => exact absurd h (by simp)
      next => exact absurd hread (by simp)

/-- C10: if the output file parses to a table with fewer than three
columns, TRAJECTORY loading fails during the rename; consequently any
successfully returned table has at least three columns, the first three
named x, y, z. -/
theorem load_output_data_trajectory_needs_three_columns :
    (∀ table : List (List ℚ), (read_csv table).isSome →
        (table.headD []).length < 3 →
        load_output_data .trajectory table = none) ∧
    (∀ table df, load_output_data .trajectory table = some df →
        3 ≤ df.cols.length ∧ (df.cols.map Prod.fst).take 3 = ["x", "y", "z"]) := by
  constructor
  · intro table hparse hlt
    cases hload : load_output_data .trajectory table with
    | none => rfl
    | some df =>
        obtain ⟨hn, -, -⟩ := load_output_data_success_shape table df hload
        exact absurd hn (by omega)
  · intro table df h
    obtain ⟨hn, hlen, hnames⟩ := load_output_data_success_shape table df h
    exact ⟨hlen ▸ hn, hnames⟩

/-- Witness for C10: a two-column table fails to load; a four-column table
loads with first three columns x, y, z. -/
theorem load_output_data_trajectory_needs_three_columns_witness :
    load_output_data .trajectory [[1, 2], [3, 4]] = none :=
  load_output_data_trajectory_needs_three_columns.1 [[1, 2], [3, 4]]
    (by decide) (by decide)

/-- Counterexample to C5 as stated: the four-column input [[1,2,3,4]] is
parseable, yet the returned table has four columns, not exactly three. -/
theorem load_output_data_four_columns_counterexample :
    ∃ df, load_output_data .trajectory [[1, 2, 3, 4]] = some df ∧
      df.cols.length ≠ 3 := by
  refine ⟨⟨[("x", [1]), ("y", [2]), ("z", [3]), ("column_4", [4])]⟩, ?_, by decide⟩
  rfl

/-- C5 (amended): on every parseable input the TRAJECTORY table's first
three column names are exactly x, y, z, and its column count equals the
input file's column count — exactly three only when the input has exactly
three columns. -/
theorem load_output_data_trajectory_columns (table : List (List ℚ))
    (df : DataFrame) (h : load_output_data .trajectory table = some df) :
    (df.cols.map Prod.fst).take 3 = ["x", "y", "z"] ∧
    df.cols.length = (table.headD []).length ∧
    (df.cols.length = 3 ↔ (table.headD []).length = 3) := by
  obtain ⟨hn, hlen, hnames⟩ := load_output_data_success_shape table df h
  exact ⟨hnames, hlen, by omega⟩

/-- Witness for amended C5 at a concrete three-column table. -/
theorem load_output_data_trajectory_columns_witness :
    ∃ df, load_output_data .trajectory [[1, 2, 3]] = some df ∧
      (df.cols.map Prod.fst).take 3 = ["x", "y", "z"] ∧
      df.cols.length = 3 := by
  refine ⟨⟨[("x", [1]), ("y", [2]), ("z", [3])]⟩, rfl, ?_⟩
  obtain ⟨h1, h2, -⟩ := load_output_data_trajectory_columns [[1, 2, 3]]
    ⟨[("x", [1]), ("y", [2]), ("z", [3])]⟩ rfl
  exact ⟨h1, h2⟩

/-- C2: `run_simulation` errors exactly on a non-zero child exit status;
on both paths the log file holds exactly the bytes the child wrote to
stdout before exiting, and the handle is closed before any error
propagates. -/
theorem run_simulation_spec (simulation : Simulation) (binary_path : String)
    (child : ChildBehavior) :
    ((run_simulation simulation binary_path child).result = .ok () ↔
        child.exitStatus = 0) ∧
    ((run_simulation simulation binary_path child).result =
        .error (.calledProcessError child.exitStatus) ↔ child.exitStatus ≠ 0) ∧
    (run_simulation simulation binary_path child).file.contents =
        child.writtenBytes ∧
    (run_simulation simulation binary_path child).file.closed = true := by
  unfold run_simulation
  by_cases h : child.exitStatus = 0 <;> simp [h]

/-- Witness for C2: a child that wrote two bytes and exited with status 2. -/
theorem run_simulation_spec_witness :
    (run_simulation simA "fpm" ⟨[104, 105], 2⟩).result =
        .error (.calledProcessError 2) ∧
    (run_simulation simA "fpm" ⟨[104, 105], 2⟩).file.contents = [104, 105] ∧
    (run_simulation simA "fpm" ⟨[104, 105], 2⟩).file.closed = true :=
  ⟨((run_simulation_spec simA "fpm" ⟨[104, 105], 2⟩).2.1).mpr (by decide),
   (run_simulation_spec simA "fpm" ⟨[104, 105], 2⟩).2.2.1,
   (run_simulation_spec simA "fpm" ⟨[104, 105], 2⟩).2.2.2⟩

theorem plot_trajectory_eq (df : DataFrame) (xs ys zs : List ℚ)
    (hx : column df "x" = some xs) (hy : column df "y" = some ys)
    (hz : column df "z" = some zs)
    (hxe : xs ≠ []) (hye : ys ≠ []) (hze : zs ≠ []) :
    plot_trajectory df = some
      { line := (xs, ys, zs),
        start := (xs.head hxe, ys.head hye, zs.head hze),
        endMarker := (xs.getLast hxe, ys.getLast hye, zs.getLast hze),
        xlim := (mid_of xs - max_range_of xs ys zs,
                 mid_of xs + max_range_of xs ys zs),
        ylim := (mid_of ys - max_range_of xs ys zs,
                 mid_of ys + max_range_of xs ys zs),
        zlim := (mid_of zs - max_range_of xs ys zs,
                 mid_of zs + max_range_of xs ys zs) } := by
  simp only [plot_trajectory, hx, hy, hz, List.head?_eq_head hxe,
    List.head?_eq_head hye, List.head?_eq_head hze,
    List.getLast?_eq_getLast xs hxe, List.getLast?_eq_getLast ys hye,
    List.getLast?_eq_getLast zs hze, Option.bind_eq_bind, Option.some_bind,
    Option.pure_def]

/-- C9: on any trajectory table with at least one row the start marker is
the first row, the end marker is the last row, and both accesses are in
bounds (plotting succeeds); with exactly one row the two markers
coincide. -/
theorem plot_trajectory_markers (df : DataFrame) (xs ys zs : List ℚ)
    (hx : column df "x" = some xs) (hy : column df "y" = some ys)
    (hz : column df "z" = some zs)
    (hxe : xs ≠ []) (hye : ys ≠ []) (hze : zs ≠ []) :
    (∃ p, plot_trajectory df = some p ∧
      p.start = (xs.head hxe, ys.head hye, zs.head hze) ∧
      p.endMarker = (xs.getLast hxe, ys.getLast hye, zs.getLast hze)) ∧
    (xs.length = 1 → ys.length = 1 → zs.length = 1 →
      ∀ p, plot_trajectory df = some p → p.start = p.endMarker) := by
  have heq := plot_trajectory_eq df xs ys zs hx hy hz hxe hye hze
  refine ⟨⟨_, heq, rfl, rfl⟩, ?_⟩
  intro h1 h2 h3 p hp
  rw [heq] at hp
  cases hp
  obtain ⟨a, rfl⟩ := List.length_eq_one.mp h1
  obtain ⟨b, rfl⟩ := List.length_eq_one.mp h2
  obtain ⟨c, rfl⟩ := List.length_eq_one.mp h3
  simp [List.getLast_singleton]

/-- Witness for C9: the one-row table, where both markers are (5, 6, 7). -/
theorem plot_trajectory_markers_witness :
    Plot3D.start
      ⟨([5], [6], [7]), (5, 6, 7), (5, 6, 7),
       (mid_of [5] - max_range_of [5] [6] [7], mid_of [5] + max_range_of [5] [6] [7]),
       (mid_of [6] - max_range_of [5] [6] [7], mid_of [6] + max_range_of [5] [6] [7]),
       (mid_of [7] - max_range_of [5] [6] [7], mid_of [7] + max_range_of [5] [6] [7])⟩ =
    Plot3D.endMarker
      ⟨([5], [6], [7]), (5, 6, 7), (5, 6, 7),
       (mid_of [5] - max_range_of [5] [6] [7], mid_of [5] + max_range_of [5] [6] [7]),
       (mid_of [6] - max_range_of [5] [6] [7], mid_of [6] + max_range_of [5] [6] [7]),
       (mid_of [7] - max_range_of [5] [6] [7], mid_of [7] + max_range_of [5] [6] [7])⟩ :=
  (plot_trajectory_markers singletonDf [5] [6] [7] rfl rfl rfl (by decide)
      (by decide) (by decide)).2 rfl rfl rfl
    ⟨([5], [6], [7]), (5, 6, 7), (5, 6, 7),
     (mid_of [5] - max_range_of [5] [6] [7], mid_of [5] + max_range_of [5] [6] [7]),
     (mid_of [6] - max_range_of [5] [6] [7], mid_of [6] + max_range_of [5] [6] [7]),
     (mid_of [7] - max_range_of [5] [6] [7], mid_of [7] + max_range_of [5] [6] [7])⟩ rfl

/-- C4: `plot_trajectory` sets every axis's limits to that axis's own
midpoint plus or minus the shared `max_range` (half the largest span), so
the three axes have equal extent; on the triples (0,0,0), (1,1,1), (2,0,2)
the computed `max_range` is 1 and the midpoints are (1, 1/2, 1). -/
theorem plot_trajectory_equalized_axes :
    (∀ df xs ys zs, column df "x" = some xs → column df "y" = some ys →
      column df "z" = some zs → xs ≠ [] → ys ≠ [] → zs ≠ [] →
      ∃ p, plot_trajectory df = some p ∧
        p.xlim = (mid_of xs - max_range_of xs ys zs,
                  mid_of xs + max_range_of xs ys zs) ∧
        p.ylim = (mid_of ys - max_range_of xs ys zs,
                  mid_of ys + max_range_of xs ys zs) ∧
        p.zlim = (mid_of zs - max_range_of xs ys zs,
                  mid_of zs + max_range_of xs ys zs) ∧
        p.xlim.2 - p.xlim.1 = p.ylim.2 - p.ylim.1 ∧
        p.ylim.2 - p.ylim.1 = p.zlim.2 - p.zlim.1) ∧
    (max_range_of [0, 1, 2] [0, 1, 0] [0, 1, 2] = 1 ∧
     mid_of [(0 : ℚ), 1, 2] = 1 ∧
     mid_of [(0 : ℚ), 1, 0] = 1 / 2 ∧
     ∃ p, plot_trajectory trajDf = some p ∧
       p.xlim = (1 - 1, 1 + 1) ∧ p.ylim = (1 / 2 - 1, 1 / 2 + 1) ∧
       p.zlim = (1 - 1, 1 + 1)) := by
  constructor
  · intro df xs ys zs hx hy hz hxe hye hze
    refine ⟨_, plot_trajectory_eq df xs ys zs hx hy hz hxe hye hze,
      rfl, rfl, rfl, ?_, ?_⟩ <;> ring
  · have hmr : max_range_of [0, 1, 2] [0, 1, 0] [0, 1, 2] = 1 := by
      norm_num [max_range_of, npMax, npMin, max_def]
    have hmx : mid_of [(0 : ℚ), 1, 2] = 1 := by
      norm_num [mid_of, npMax, npMin, max_def]
    have hmy : mid_of [(0 : ℚ), 1, 0] = 1 / 2 := by
      norm_num [mid_of, npMax, npMin, max_def]
    refine ⟨hmr, hmx, hmy,
      _, plot_trajectory_eq trajDf [0, 1, 2] [0, 1, 0] [0, 1, 2] rfl rfl rfl
        (by decide) (by decide) (by decide), ?_, ?_, ?_⟩
    · simp only [hmr, hmx]
    · simp only [hmr, hmy]
    · simp only [hmr, hmx]

/-- Witness for C4 at the spec's concrete trajectory table. -/
theorem plot_trajectory_equalized_axes_witness :
    ∃ p, plot_trajectory trajDf = some p ∧
      p.xlim = (mid_of [0, 1, 2] - max_range_of [0, 1, 2] [0, 1, 0] [0, 1, 2],
                mid_of [0, 1, 2] + max_range_of [0, 1, 2] [0, 1, 0] [0, 1, 2]) ∧
      p.ylim = (mid_of [0, 1, 0] - max_range_of [0, 1, 2] [0, 1, 0] [0, 1, 2],
                mid_of [0, 1, 0] + max_range_of [0, 1, 2] [0, 1, 0] [0, 1, 2]) ∧
      p.zlim = (mid_of [0, 1, 2] - max_range_of [0, 1, 2] [0, 1, 0] [0, 1, 2],
                mid_of [0, 1, 2] + max_range_of [0, 1, 2] [0, 1, 0] [0, 1, 2]) ∧
      p.xlim.2 - p.xlim.1 = p.ylim.2 - p.ylim.1 ∧
      p.ylim.2 - p.ylim.1 = p.zlim.2 - p.zlim.1 :=
  plot_trajectory_equalized_axes.1 trajDf [0, 1, 2] [0, 1, 0] [0, 1, 2]
    rfl rfl rfl (by decide) (by decide) (by decide)

/-- C7: when the requested id is absent from the index, `main` emits one
error-severity log record and raises; the trace holds no subprocess launch
and no plot save. -/
theorem main_absent_id (args : Args) (index : SimulationIndex)
    (tsStart tsEnd : Nat) (child : ChildBehavior) (outputTable : List (List ℚ))
    (h : get_simulation index.simulations args.simulation_id = none) :
    mainModel args index tsStart tsEnd child outputTable =
      ([.logError "Simulation with provided id not found."],
       .error (.simulationNotFound args.simulation_id)) ∧
    ∀ e ∈ (mainModel args index tsStart tsEnd child outputTable).1,
      (∀ argv p, e ≠ .runProcess argv p) ∧ (∀ p, e ≠ .savePlot p) := by
  have hm : mainModel args index tsStart tsEnd child outputTable =
      ([.logError "Simulation with provided id not found."],
       .error (.simulationNotFound args.simulation_id)) := by
    unfold mainModel
    rw [h]
  refine ⟨hm, ?_⟩
  rw [hm]
  intro e he
  simp only [List.mem_singleton] at he
  subst he
  exact ⟨fun argv p => by simp, fun p => by simp⟩

/-- Witness for C7: a one-record index queried with an id it lacks. -/
theorem main_absent_id_witness :
    mainModel ⟨"zzz", "fpm", "output"⟩ ⟨[simA]⟩ 5 9 ⟨[], 0⟩ [] =
      ([.logError "Simulation with provided id not found."],
       .error (.simulationNotFound "zzz")) :=
  (main_absent_id ⟨"zzz", "fpm", "output"⟩ ⟨[simA]⟩ 5 9 ⟨[], 0⟩ []
    (by decide)).1

/-- C8: the log path and plot path differ only in extension (they share a
stem built from the output dir, the simulation id and the start
timestamp), and every artifact-producing step of `main` uses exactly the
paths derived from `simulation_id` and the single start timestamp. -/
theorem main_artifact_paths :
    (∀ dir i ts, ∃ stem,
        log_file_path dir i ts = stem ++ ".log" ∧
        plot_file_path dir i ts = stem ++ ".png") ∧
    (∀ args index tsStart tsEnd child outputTable,
      ∀ e ∈ (mainModel args index tsStart tsEnd child outputTable).1,
        (∀ argv p, e = .runProcess argv p →
            p = log_file_path args.output_dir args.simulation_id tsStart) ∧
        (∀ p, e = .savePlot p →
            p = plot_file_path args.output_dir args.simulation_id tsStart)) := by
  constructor
  · intro dir i ts
    refine ⟨dir ++ "/" ++ i ++ "_" ++ toString ts, ?_, ?_⟩ <;>
      simp [log_file_path, plot_file_path, log_file_name, plot_file_name,
        String.append_assoc]
  · intro args index tsStart tsEnd child outputTable e he
    unfold mainModel at he
    split at he
    next =>
      simp only [List.mem_singleton] at he
      subst he
      exact ⟨fun argv p hp => Event.noConfusion hp,
             fun p hp => Event.noConfusion hp⟩
    next simulation hsim =>
      split at he
      next st heq =>
        simp only [List.mem_cons, List.not_mem_nil, or_false] at he
        rcases he with rfl | rfl
        · exact ⟨fun argv p hp => Event.noConfusion hp,
                 fun p hp => Event.noConfusion hp⟩
        · refine ⟨fun argv p hp => ?_, fun p hp => Event.noConfusion hp⟩
          injection hp with h1 h2
          exact h2.symm
      next =>
        split at he
        next =>
          simp only [List.mem_cons, List.not_mem_nil, or_false] at he
          rcases he with rfl | rfl | rfl
          · exact ⟨fun argv p hp => Event.noConfusion hp,
                   fun p hp => Event.noConfusion hp⟩
          · refine ⟨fun argv p hp => ?_, fun p hp => Event.noConfusion hp⟩
            injection hp with h1 h2
            exact h2.symm
          · exact ⟨fun argv p hp => Event.noConfusion hp,
                   fun p hp => Event.noConfusion hp⟩
        next df hdf =>
          split at he
          next =>
            split at he
            next =>
              simp only [List.mem_cons, List.not_mem_nil, or_false] at he
              rcases he with rfl | rfl | rfl
              · exact ⟨fun argv p hp => Event.noConfusion hp,
                       fun p hp => Event.noConfusion hp⟩
              · refine ⟨fun argv p hp => ?_, fun p hp => Event.noConfusion hp⟩
                injection hp with h1 h2
                exact h2.symm
              · exact ⟨fun argv p hp => Event.noConfusion hp,
                       fun p hp => Event.noConfusion hp⟩
            next pl hpl =>
              simp only [List.mem_cons, List.not_mem_nil, or_false] at he
              rcases he with rfl | rfl | rfl | rfl | rfl
              · exact ⟨fun argv p hp => Event.noConfusion hp,
                       fun p hp => Event.noConfusion hp⟩
              · refine ⟨fun argv p hp => ?_, fun p hp => Event.noConfusion hp⟩
                injection hp with h1 h2
                exact h2.symm
              · exact ⟨fun argv p hp => Event.noConfusion hp,
                       fun p hp => Event.noConfusion hp⟩
              · refine ⟨fun argv p hp => Event.noConfusion hp,
                  fun p hp => ?_⟩
                injection hp with h1
                exact h1.symm
              · exact ⟨fun argv p hp => Event.noConfusion hp,
                       fun p hp => Event.noConfusion hp⟩

/-- Witness for C8: the runProcess event of a concrete failing run uses the
path derived from the id "a" and start timestamp 5. -/
theorem main_artifact_paths_witness :
    "output/a_5.log" = log_file_path "output" "a" 5 :=
  ((main_artifact_paths.2 ⟨"a", "fpm", "output"⟩ ⟨[simA]⟩ 5 9 ⟨[], 2⟩ []
      (.runProcess ["fpm", "run", "--target", "demo-a"] "output/a_5.log")
      (by decide)).1
    ["fpm", "run", "--target", "demo-a"] "output/a_5.log" rfl)
